import Mathlib

/-!
Verification of the trending-paper scoring/selection pipeline of
`ai_paper_writer.py` (shallow embedding).

The embedding models the pure scoring core of the script:
`is_recent_paper`, `calculate_trending_score`, the candidate-set reduction
inside `fetch_trending`, `validate_external_trending`, and `pick_best`.
Network fetching and text generation are out of scope (per the design spec,
they are thin I/O glue around the scoring core).

Modelling conventions:
- Python dict records become the `Paper` structure.  Per the data model
  (spec section 3) every record carries an identifying `title`; all other
  fields are optional.  Extra source keys are kept in `extra` so that the
  frame/no-overwrite property can be stated.
- The `published` string is modelled by `PubValue`, which records the
  outcome classes of the script's dual-format parse: the code branches on
  whether the string contains "T", then calls `datetime.fromisoformat`
  (after replacing "Z" with "+00:00") or `datetime.strptime(_, "%Y-%m-%d")`.
  A successful ISO parse is timezone-aware exactly when the string carried a
  "Z" or offset suffix; `isoAware`/`isoNaive` record that distinction,
  `plain` records a bare calendar date, and `malformedT`/`malformedPlain`/
  `nonStringNoT`/`absent` record the failing shapes whose exceptions are
  `ValueError`/`TypeError`, which the code catches.  One non-string shape is
  NOT safe: a container whose membership test finds "T" (`nonStringWithT`)
  reaches `.replace` and raises an `AttributeError` the `except` clause does
  not catch; `PyResult` and the `_run` functions model that escaping path.
- `github_stars` is modelled by `StarsField`: the key may be missing
  (`.get` returns its default), present with value `None`, or an integer.
- Machine integers are `Int`/`Nat`; Python ints are unbounded so no
  wrap-around modelling is needed.
- The ambient clock `datetime.now()` becomes an explicit parameter `now`,
  measured in seconds since the Unix epoch; `datetime.strptime` dates sit at
  midnight of their day.  `timedelta.days` floors, hence `Int.fdiv`.
-/

namespace AIPaperWriter

/-- Outcome classes of the `published` field under the script's dual-format
parsing (`"T" in s` dispatch, then `fromisoformat` / `strptime`). -/
inductive PubValue where
  /-- Key missing, or a falsy value (`None`, `""`): `if not published_date` fires. -/
  | absent : PubValue
  /-- A truthy non-string value whose membership test does not find "T": either a
  scalar (int, float, object), where `"T" in value` itself raises `TypeError`, or a
  container without a "T" member, where the test is `False` and
  `strptime(value, "%Y-%m-%d")` raises `TypeError`.  Both raises are caught. -/
  | nonStringNoT : PubValue
  /-- A truthy non-string container whose membership test finds "T" (for example
  the list `["T"]`, or a dict with key "T"): `"T" in value` is `True`, so the code
  calls `value.replace('Z', '+00:00')`, which raises `AttributeError` — an
  exception the `except (ValueError, TypeError)` clause does NOT catch, so it
  escapes the function. -/
  | nonStringWithT : PubValue
  /-- A string containing "T" that `datetime.fromisoformat` rejects (`ValueError`, caught). -/
  | malformedT : PubValue
  /-- A string without "T" that `strptime(_, "%Y-%m-%d")` rejects (`ValueError`, caught). -/
  | malformedPlain : PubValue
  /-- A valid ISO date+time string carrying a "Z" or UTC-offset suffix; parses to a
  timezone-aware datetime with the given calendar date and second-of-day. -/
  | isoAware (year : Int) (month day secOfDay : Nat) : PubValue
  /-- A valid ISO date+time string with no timezone suffix; parses to a naive datetime. -/
  | isoNaive (year : Int) (month day secOfDay : Nat) : PubValue
  /-- A plain "%Y-%m-%d" calendar date string; parses to a naive datetime at midnight. -/
  | plain (year : Int) (month day : Nat) : PubValue
  deriving DecidableEq, Repr

/-- The `github_stars` entry of a record: missing key, explicit `None`, or an integer. -/
inductive StarsField where
  | absent : StarsField
  | null : StarsField
  | val (n : Int) : StarsField
  deriving DecidableEq, Repr

/-- The `trending_analysis` breakdown dict built by `calculate_trending_score`. -/
structure ScoreBreakdown where
  github_stars : Int
  recency_bonus : Nat
  conference_bonus : Nat
  total_score : Int
  deriving DecidableEq, Repr

/-- The `external_validation` dict built by `validate_external_trending`. -/
structure ValidationBreakdown where
  arxiv_url : Option String
  has_code : Bool
  validation_score : Nat
  deriving DecidableEq, Repr

/-- A paper record.  `title` is the identifying field the data model guarantees;
`extra` holds any further source keys untouched by the pipeline; the two
trailing fields are the enrichment slots the pipeline writes. -/
structure Paper where
  title : String := ""
  url_abs : Option String := none
  published : PubValue := .absent
  github_stars : StarsField := .absent
  conference : Option String := none
  extra : List (String × String) := []
  trending_analysis : Option ScoreBreakdown := none
  external_validation : Option ValidationBreakdown := none
  deriving DecidableEq, Repr

/-- The sentinel `{}` returned by `pick_best` on empty input. -/
def emptyPaper : Paper := {}

/-- Result of running a Python function that either returns a value or lets an
uncaught `AttributeError` escape (the `except` clauses of this script catch only
`ValueError` and `TypeError`). -/
inductive PyResult (α : Type) where
  | ok (val : α) : PyResult α
  | attributeError : PyResult α
  deriving DecidableEq, Repr

/-! ### Calendar arithmetic

The script subtracts `datetime` values; we model a naive datetime as seconds
since the Unix epoch.  `daysFromCivil` is the standard civil-calendar day
count (days since 1970-01-01), matching Python's proleptic Gregorian
calendar on valid dates. -/

/-- Days from 1970-01-01 to the civil date `y-m-d` (proleptic Gregorian). -/
def daysFromCivil (y : Int) (m d : Nat) : Int :=
  let y' : Int := if m ≤ 2 then y - 1 else y
  let era : Int := y'.fdiv 400
  let yoe : Int := y' - era * 400
  let mp : Int := ((m : Int) + 9) % 12
  let doy : Int := (153 * mp + 2).fdiv 5 + (d : Int) - 1
  let doe : Int := yoe * 365 + yoe.fdiv 4 - yoe.fdiv 100 + doy
  era * 146097 + doe - 719468

/-- Seconds since the epoch of midnight on the civil date `y-m-d`
(what `strptime(s, "%Y-%m-%d")` yields). -/
def dateSecs (y : Int) (m d : Nat) : Int := daysFromCivil y m d * 86400

/-- The `days` attribute of `now - paper_date`: Python's `timedelta.days`
floors toward negative infinity. -/
def daysOld (now pubSecs : Int) : Int := (now - pubSecs).fdiv 86400

/-! ### Recency filter (`is_recent_paper`) -/

/-- The script constant `CURRENT_YEAR = 2025`. -/
def CURRENT_YEAR : Int := 2025

/-- Embeds the returning behaviour of `is_recent_paper` with the year cutoff as
a parameter (the script reads the module constant `CURRENT_YEAR`).
Falsy/malformed/scalar-non-string `published` values return `false` via the
falsy guard or the caught `ValueError`/`TypeError`; otherwise the parsed year
is compared to the cutoff.  The timezone-aware branch only reads `.year`, so no
naive/aware mixing occurs here.  On the `nonStringWithT` shape the real
function raises instead of returning — that path is modelled faithfully by
`is_recent_paper_run`; this `Bool` projection (used by the candidate-set
reduction, whose data model has textual-or-absent `published`) gives the value
returned whenever the function returns at all. -/
def is_recent_paper_at (cutoff_year : Int) (paper : Paper) : Bool :=
  match paper.published with
  | .absent => false
  | .nonStringNoT => false
  | .nonStringWithT => false
  | .malformedT => false
  | .malformedPlain => false
  | .isoAware y _ _ _ => cutoff_year ≤ y
  | .isoNaive y _ _ _ => cutoff_year ≤ y
  | .plain y _ _ => cutoff_year ≤ y

/-- Faithful fallible model of `is_recent_paper`: on a container `published`
value whose membership test finds "T", the call `published_date.replace(...)`
raises an uncaught `AttributeError`; every other shape returns the `Bool` of
`is_recent_paper_at`. -/
def is_recent_paper_run (cutoff_year : Int) (paper : Paper) : PyResult Bool :=
  match paper.published with
  | .nonStringWithT => .attributeError
  | _ => .ok (is_recent_paper_at cutoff_year paper)

/-- The script's `is_recent_paper` at the configured `CURRENT_YEAR`
(returning behaviour; see `is_recent_paper_run` for the raising shape). -/
def is_recent_paper (paper : Paper) : Bool :=
  is_recent_paper_at CURRENT_YEAR paper

/-- Year delivered by a successful parse of `published`, `none` if the parse
fails or the field is absent (used to state the recency-filter contract). -/
def parsedYear : PubValue → Option Int
  | .isoAware y _ _ _ => some y
  | .isoNaive y _ _ _ => some y
  | .plain y _ _ => some y
  | _ => none

/-! ### Trending scorer (`calculate_trending_score`) -/

/-- Value of `paper.get("github_stars", 0) or 0`: missing key takes the
default `0`, a present `None` is replaced by the `or 0`. -/
def starsValue (p : Paper) : Int :=
  match p.github_stars with
  | .val n => n
  | _ => 0

/-- Python truthiness of `paper.get("github_stars", 0)`: a present nonzero
integer (missing key gives falsy `0`, a present `None` is falsy). -/
def starsTruthy : StarsField → Bool
  | .val n => n != 0
  | _ => false

/-- The allow-list `prestigious_conferences` exactly as written in the source,
including the mixed-case `"NeurIPS"` entry. -/
def prestigious_conferences : List String :=
  ["ICLR", "ICML", "NeurIPS", "AAAI", "IJCAI", "ACL", "EMNLP"]

/-- Python's `str.upper` for one character.  The full Unicode case table is
modelled exactly on: ASCII; the Latin-1 letters (including the expanding
'ß' → "SS" and the remapped micro sign → capital Mu, 'ÿ' → 'Ÿ'); and every
character whose Python uppercase contains an ASCII letter — dotless i
(U+0131) → 'I', long s (U+017F) → 'S', 'ŉ' (U+0149), 'ǰ' (U+01F0),
U+1E96–U+1E9A, and the Latin f-ligatures U+FB00–U+FB06.  Every other
character is mapped to itself; Python may uppercase such a character to other
non-ASCII characters, but since the venue allow-list entries are pure ASCII
and the maximal ASCII runs of the output agree with Python's on every input,
the substring test below is unaffected, and all conference strings the
theorems in this file evaluate are pure ASCII. -/
def pyUpperChar (c : Char) : List Char :=
  if 'a' ≤ c ∧ c ≤ 'z' then [Char.toUpper c]
  else if c = 'ß' then ['S', 'S']
  else if c = 'µ' then ['Μ']
  else if c = 'ÿ' then ['Ÿ']
  else if 'à' ≤ c ∧ c ≤ 'þ' ∧ c ≠ '÷' then [Char.ofNat (c.toNat - 32)]
  else if c = 'ı' then ['I']
  else if c = 'ſ' then ['S']
  else if c = 'ŉ' then ['\u02BC', 'N']
  else if c = 'ǰ' then ['J', '\u030C']
  else if c = 'ẖ' then ['H', '\u0331']
  else if c = 'ẗ' then ['T', '\u0308']
  else if c = 'ẘ' then ['W', '\u030A']
  else if c = 'ẙ' then ['Y', '\u030A']
  else if c = 'ẚ' then ['A', '\u02BE']
  else if c = 'ﬀ' then ['F', 'F']
  else if c = 'ﬁ' then ['F', 'I']
  else if c = 'ﬂ' then ['F', 'L']
  else if c = 'ﬃ' then ['F', 'F', 'I']
  else if c = 'ﬄ' then ['F', 'F', 'L']
  else if c = 'ﬅ' then ['S', 'T']
  else if c = 'ﬆ' then ['S', 'T']
  else [c]

/-- Character list of `s.upper()` (see `pyUpperChar` for the modelled
fragment of the Unicode case table). -/
def upperChars (s : String) : List Char := s.data.flatMap pyUpperChar

/-- Whether `needle` is a prefix of `hay` (character lists). -/
def beginsWith : List Char → List Char → Bool
  | [], _ => true
  | _ :: _, [] => false
  | a :: as, b :: bs => a == b && beginsWith as bs

/-- Python's `needle in hay` substring containment on character lists. -/
def containsSeq (needle : List Char) : List Char → Bool
  | [] => needle.isEmpty
  | b :: bs => beginsWith needle (b :: bs) || containsSeq needle bs

/-- The conference-bonus computation of `calculate_trending_score`:
`conference = paper.get("conference") or ""`, then 20 points when the
defaulted string is truthy and some allow-list entry occurs — with its
original casing — inside `conference.upper()`. -/
def conference_bonus_of (conference : Option String) : Nat :=
  let c := conference.getD ""
  if c == "" then 0
  else if prestigious_conferences.any (fun conf => containsSeq conf.data (upperChars c))
  then 20 else 0

/-- The sliding recency scale on `days_old` from the source
(`<= 7` → 50, `<= 30` → 25, `<= 90` → 10, else 0). -/
def recencyTier (days_old : Int) : Nat :=
  if days_old ≤ 7 then 50
  else if days_old ≤ 30 then 25
  else if days_old ≤ 90 then 10
  else 0

/-- The recency-bonus computation of `calculate_trending_score`.  The guard
`if paper.get("published")` skips falsy values; parse failures raise
`ValueError`/`TypeError` inside the `try` and leave the bonus at 0.  In the
timezone-aware case the parse succeeds but `datetime.now() - paper_date`
mixes a naive and an aware datetime, raising `TypeError`, which the same
`except` clause catches — so aware timestamps always score 0.  As in the
filter, the `nonStringWithT` shape actually raises an uncaught
`AttributeError` at the `.replace` call; `recency_bonus_run` models that
path, and this total function is the value returned whenever the scorer
returns at all. -/
def recency_bonus_of (now : Int) : PubValue → Nat
  | .absent => 0
  | .nonStringNoT => 0
  | .nonStringWithT => 0
  | .malformedT => 0
  | .malformedPlain => 0
  | .isoAware _ _ _ _ => 0
  | .isoNaive y m d s => recencyTier (daysOld now (dateSecs y m d + s))
  | .plain y m d => recencyTier (daysOld now (dateSecs y m d))

/-- Embeds `calculate_trending_score`; `now` is the ambient `datetime.now()`
in epoch seconds. -/
def calculate_trending_score (now : Int) (paper : Paper) : ScoreBreakdown :=
  let gh := starsValue paper * 10
  let recBonus := recency_bonus_of now paper.published
  let confBonus := conference_bonus_of paper.conference
  { github_stars := gh
    recency_bonus := recBonus
    conference_bonus := confBonus
    total_score := gh + recBonus + confBonus }

/-- Faithful fallible model of the scorer's recency component: the container
shape with a "T" member reaches `.replace` and raises an uncaught
`AttributeError`; all other shapes return the total `recency_bonus_of`. -/
def recency_bonus_run (now : Int) : PubValue → PyResult Nat
  | .nonStringWithT => .attributeError
  | pub => .ok (recency_bonus_of now pub)

/-- Faithful fallible model of `calculate_trending_score`: the uncaught
`AttributeError` of the recency component escapes the whole function. -/
def calculate_trending_score_run (now : Int) (paper : Paper) : PyResult ScoreBreakdown :=
  match recency_bonus_run now paper.published with
  | .attributeError => .attributeError
  | .ok _ => .ok (calculate_trending_score now paper)

/-! ### Candidate-set reduction (`fetch_trending`, lines after the HTTP fetch) -/

/-- The pure reduction step of `fetch_trending`: filter by `is_recent_paper`;
if nothing passes, fall back to the first 10 records of the original list.
The returned flag records whether the fallback warning was printed. -/
def reduce_candidates (all_papers : List Paper) : List Paper × Bool :=
  let recent_papers := all_papers.filter is_recent_paper
  if recent_papers.isEmpty then (all_papers.take 10, true)
  else (recent_papers, false)

/-- The enrichment write of `fetch_trending`:
`paper['trending_analysis'] = calculate_trending_score(paper)`. -/
def enrich_trending (now : Int) (p : Paper) : Paper :=
  { p with trending_analysis := some (calculate_trending_score now p) }

/-- Embeds `fetch_trending` minus the HTTP call: reduce the candidate set,
then attach the trending analysis to each survivor. -/
def fetch_trending (now : Int) (all_papers : List Paper) : List Paper × Bool :=
  let reduced := reduce_candidates all_papers
  (reduced.1.map (enrich_trending now), reduced.2)

/-! ### External validator (`validate_external_trending`) -/

/-- The preprint-server domain marker checked against `url_abs`. -/
def arxivMarker : String := "arxiv.org"

/-- The character class CPython's `str.isspace` reports — exactly the set
`str.strip()` with no argument removes: the ASCII whitespace controls
U+0009–U+000D, the separator controls U+001C–U+001F, space, NEL (U+0085),
no-break space (U+00A0), Ogham space mark (U+1680), the U+2000–U+200A spaces,
line/paragraph separators (U+2028/U+2029), narrow no-break space (U+202F),
medium mathematical space (U+205F) and ideographic space (U+3000). -/
def pyIsSpace (c : Char) : Bool :=
  decide (c = ' ' ∨ c = '\t' ∨ c = '\n' ∨ c = '\x0b' ∨ c = '\x0c' ∨ c = '\x0d'
    ∨ c = '\x1c' ∨ c = '\x1d' ∨ c = '\x1e' ∨ c = '\x1f'
    ∨ c = '\x85' ∨ c = '\xa0' ∨ c = '\u1680'
    ∨ ('\u2000' ≤ c ∧ c ≤ '\u200A')
    ∨ c = '\u2028' ∨ c = '\u2029' ∨ c = '\u202F' ∨ c = '\u205F' ∨ c = '\u3000')

/-- Python truthiness of `conference.strip()`: true when the string has a
character outside Python's whitespace class `pyIsSpace`. -/
def pyStripTruthy (s : String) : Bool :=
  s.data.any (fun c => !(pyIsSpace c))

/-- Embeds `validate_external_trending`: +10 when `paper.get("url_abs", "")`
contains the arXiv marker (recording the matched URL), +15 when
`github_stars` is truthy, +5 when the defaulted `conference` string is truthy
and has a truthy `strip()`. -/
def validate_external_trending (paper : Paper) : ValidationBreakdown :=
  let arxiv_url := paper.url_abs.getD ""
  let v0 : ValidationBreakdown :=
    { arxiv_url := none, has_code := false, validation_score := 0 }
  let v1 :=
    if containsSeq arxivMarker.data arxiv_url.data then
      { v0 with arxiv_url := some arxiv_url, validation_score := v0.validation_score + 10 }
    else v0
  let v2 :=
    if starsTruthy paper.github_stars then
      { v1 with has_code := true, validation_score := v1.validation_score + 15 }
    else v1
  let conference := paper.conference.getD ""
  if conference != "" && pyStripTruthy conference then
    { v2 with validation_score := v2.validation_score + 5 }
  else v2

/-! ### Selector (`pick_best`)

Python's `sorted(papers, key=combined_score, reverse=True)` is a stable sort
by the key, descending.  A stable sort for a total preorder has a unique
result, so we embed it as stable insertion: an element is inserted after
every earlier element whose key is greater than or equal to its own. -/

/-- The enrichment write of `pick_best`:
`paper['external_validation'] = validate_external_trending(paper)`. -/
def add_external_validation (p : Paper) : Paper :=
  { p with external_validation := some (validate_external_trending p) }

/-- The key function `combined_score` of `pick_best`: the trending total plus
the validation score, each read with a `.get` chain that defaults a missing
enrichment (or a missing score inside it) to 0. -/
def combined_score (paper : Paper) : Int :=
  (match paper.trending_analysis with
   | some t => t.total_score
   | none => 0)
  + (match paper.external_validation with
     | some v => (v.validation_score : Int)
     | none => 0)

/-- Stable descending insertion: `a` is placed before the first element whose
key is less than or equal to `key a` and after every element with a strictly
greater key.  Since `sortDesc` inserts earlier list elements into the sorted
tail, an earlier element lands in front of later elements with equal keys,
exactly the tie behaviour of Python's stable sort. -/
def insertDesc {α : Type} (key : α → Int) (a : α) : List α → List α
  | [] => [a]
  | b :: bs => if key b ≤ key a then a :: b :: bs else b :: insertDesc key a bs

/-- Stable descending sort by `key` (the behaviour of
`sorted(_, key=key, reverse=True)`). -/
def sortDesc {α : Type} (key : α → Int) : List α → List α
  | [] => []
  | a :: as => insertDesc key a (sortDesc key as)

/-- One line of the top-3 transparency report printed by `pick_best`:
the title truncated to 60 characters and the scores shown. -/
structure ReportLine where
  title60 : String
  trending_total : Int
  validation_score : Int
  combined : Int
  deriving DecidableEq, Repr

/-- Builds the printed report line for one ranked paper, with the same
`.get`-with-default-0 reads the print statements use. -/
def report_line (p : Paper) : ReportLine :=
  let trending : Int :=
    match p.trending_analysis with
    | some t => t.total_score
    | none => 0
  let validation : Int :=
    match p.external_validation with
    | some v => (v.validation_score : Int)
    | none => 0
  { title60 := ⟨p.title.data.take 60⟩
    trending_total := trending
    validation_score := validation
    combined := trending + validation }

/-- Embeds `pick_best`: empty input returns the `{}` sentinel with no report;
otherwise every paper is enriched with its external validation, the list is
stably sorted by descending combined score, the top-3 report is produced, and
the first record of the sorted sequence is returned. -/
def pick_best (papers : List Paper) : Paper × Option (List ReportLine) :=
  match papers with
  | [] => (emptyPaper, none)
  | _ :: _ =>
    let enriched := papers.map add_external_validation
    let ranked := sortDesc combined_score enriched
    (ranked.headD emptyPaper, some ((ranked.take 3).map report_line))

/-! ### Properties of the stable descending sort -/

theorem insertDesc_perm {α : Type} (key : α → Int) (a : α) (l : List α) :
    List.Perm (insertDesc key a l) (a :: l) := by
  induction l with
  | nil => exact List.Perm.refl _
  | cons b bs ih =>
    unfold insertDesc
    split
    · exact List.Perm.refl _
    · exact (ih.cons b).trans (List.Perm.swap a b bs)

theorem sortDesc_perm {α : Type} (key : α → Int) (l : List α) :
    List.Perm (sortDesc key l) l := by
  induction l with
  | nil => exact List.Perm.refl _
  | cons a as ih => exact (insertDesc_perm key a _).trans (ih.cons a)

theorem insertDesc_pairwise {α : Type} (key : α → Int) (a : α) {l : List α}
    (h : l.Pairwise (fun x y => key y ≤ key x)) :
    (insertDesc key a l).Pairwise (fun x y => key y ≤ key x) := by
  induction l with
  | nil => simp [insertDesc]
  | cons b bs ih =>
    rw [List.pairwise_cons] at h
    obtain ⟨hb, hbs⟩ := h
    unfold insertDesc
    split
    case isTrue hba =>
      refine List.pairwise_cons.mpr ⟨?_, List.pairwise_cons.mpr ⟨hb, hbs⟩⟩
      intro y hy
      rcases List.mem_cons.mp hy with rfl | hy'
      · exact hba
      · exact le_trans (hb y hy') hba
    case isFalse hba =>
      refine List.pairwise_cons.mpr ⟨?_, ih hbs⟩
      intro y hy
      have hy2 : y ∈ a :: bs := (insertDesc_perm key a bs).mem_iff.mp hy
      rcases List.mem_cons.mp hy2 with rfl | hy'
      · exact (lt_of_not_le hba).le
      · exact hb y hy'

theorem sortDesc_pairwise {α : Type} (key : α → Int) (l : List α) :
    (sortDesc key l).Pairwise (fun x y => key y ≤ key x) := by
  induction l with
  | nil => simp [sortDesc]
  | cons a as ih => exact insertDesc_pairwise key a ih

theorem sortDesc_headD_max {α : Type} (key : α → Int) (l : List α) (d : α)
    (q : α) (hq : q ∈ l) :
    key q ≤ key ((sortDesc key l).headD d) := by
  have hperm := sortDesc_perm key l
  have hq' : q ∈ sortDesc key l := hperm.mem_iff.mpr hq
  have hp := sortDesc_pairwise key l
  cases hsort : sortDesc key l with
  | nil => rw [hsort] at hq'; cases hq'
  | cons x t =>
    rw [hsort] at hq' hp
    rw [List.pairwise_cons] at hp
    rw [List.headD_cons]
    rcases List.mem_cons.mp hq' with rfl | hq''
    · exact le_refl _
    · exact hp.1 q hq''

theorem sortDesc_headD_mem {α : Type} (key : α → Int) (l : List α) (d : α)
    (h : l ≠ []) :
    (sortDesc key l).headD d ∈ l := by
  have hperm := sortDesc_perm key l
  cases hsort : sortDesc key l with
  | nil =>
    exfalso
    have hlen := hperm.length_eq
    rw [hsort] at hlen
    exact h (List.length_eq_zero.mp hlen.symm)
  | cons x t =>
    rw [hsort] at hperm
    rw [List.headD_cons]
    exact hperm.mem_iff.mp (List.mem_cons_self x t)

theorem filter_insertDesc_of_eq {α : Type} (key : α → Int) (a : α) (c : Int)
    (l : List α) (h : key a = c) :
    (insertDesc key a l).filter (fun x => key x == c)
      = a :: l.filter (fun x => key x == c) := by
  induction l with
  | nil => simp [insertDesc, List.filter_cons, h]
  | cons b bs ih =>
    unfold insertDesc
    split
    case isTrue hba => simp [List.filter_cons, h]
    case isFalse hba =>
      have hbc : (key b == c) = false := by
        rw [beq_eq_false_iff_ne]
        intro hbceq
        exact hba (le_of_eq (h.symm ▸ hbceq))
      simp only [List.filter_cons, hbc, cond_false, if_neg, ih]
      simp [hbc]

theorem filter_insertDesc_of_ne {α : Type} (key : α → Int) (a : α) (c : Int)
    (l : List α) (h : ¬ key a = c) :
    (insertDesc key a l).filter (fun x => key x == c)
      = l.filter (fun x => key x == c) := by
  have hac : (key a == c) = false := beq_eq_false_iff_ne.mpr h
  induction l with
  | nil => simp [insertDesc, List.filter_cons, hac]
  | cons b bs ih =>
    unfold insertDesc
    split
    case isTrue hba => simp [List.filter_cons, hac]
    case isFalse hba => simp [List.filter_cons, ih]

theorem sortDesc_filter {α : Type} (key : α → Int) (c : Int) (l : List α) :
    (sortDesc key l).filter (fun x => key x == c)
      = l.filter (fun x => key x == c) := by
  induction l with
  | nil => rfl
  | cons a as ih =>
    by_cases h : key a = c
    · rw [sortDesc, filter_insertDesc_of_eq _ _ _ _ h, ih, List.filter_cons]
      simp [h]
    · rw [sortDesc, filter_insertDesc_of_ne _ _ _ _ h, ih, List.filter_cons]
      simp [h]

/-! ### Concrete fixture records used by the claim theorems and witnesses -/

/-- A record whose conference is the spec's own example `"neurips 2025"`. -/
def paperNeurips : Paper := { title := "P", conference := some "neurips 2025" }

/-- A record published one day before the reference clock, as a
timezone-aware ISO timestamp (the shape `"2025-10-11T10:30:00Z"` parses to). -/
def paperAwareFresh : Paper := { title := "P", published := .isoAware 2025 10 11 37800 }

/-- A record published as the plain calendar date `"2025-10-05"`. -/
def paperPlainOct5 : Paper := { title := "P", published := .plain 2025 10 5 }

/-- A minimal starred record (combined score 15 after validation). -/
def paperX : Paper := { title := "X", github_stars := .val 1 }

/-- A second starred record with the same combined score as `paperX`. -/
def paperY : Paper := { title := "Y", github_stars := .val 1 }

/-- The reference clock used by witnesses: midnight, 2025-10-12. -/
def nowOct12 : Int := dateSecs 2025 10 12

/-- A record whose `published` value is a non-string container with a "T"
member, such as the list `["T"]`. -/
def paperListT : Paper := { title := "P", published := .nonStringWithT }

/-! ### Claim theorems -/

/-- C1 (code evaluation at the failing input): the spec requires a prestige
component of 20 for `conference = "neurips 2025"` (case-insensitive substring
match against the venue allow-list), but the code checks each allow-list
entry with its original casing against `conference.upper()`, so the
mixed-case entry `"NeurIPS"` can never match an upper-cased string: both
`"neurips 2025"` and the canonical `"NeurIPS 2025"` score 0, contradicting
the code's own docstring listing NeurIPS among the bonus venues. -/
theorem neurips_prestige_scores_zero :
    (calculate_trending_score nowOct12 paperNeurips).conference_bonus = 0
    ∧ conference_bonus_of (some "NeurIPS 2025") = 0
    ∧ conference_bonus_of (some "ICML 2025") = 20 := by
  refine ⟨?_, by decide, by decide⟩
  decide

/-- C2 (code evaluation at the failing input): a record published one day ago
as a timezone-aware ISO timestamp receives recency component 0, while the
plain calendar-date encoding of the same day receives tier 50: the scorer
parses the aware timestamp successfully but `datetime.now() - paper_date`
mixes naive and aware datetimes, raising a `TypeError` that the surrounding
`except (ValueError, TypeError)` silently swallows. -/
theorem aware_timestamp_recency_scores_zero :
    (calculate_trending_score nowOct12 paperAwareFresh).recency_bonus = 0
    ∧ recency_bonus_of nowOct12 (.plain 2025 10 11) = 50 := by
  refine ⟨by decide, by decide⟩

/-- C3: for a record whose `published` field is a parseable plain calendar
date, the recency component equals the sliding tier applied to the age in
whole days between the clock and midnight of that date, and the tiers sit at
exactly the claimed boundaries: 7 → 50, 8 → 25, 30 → 25, 31 → 10, 90 → 10,
91 → 0, with any negative age (future-dated publication) scoring 50 like
age ≤ 7. -/
theorem recency_component_of_plain_date (now y : Int) (m d : Nat)
    (paper : Paper) (a : Int)
    (hpub : paper.published = .plain y m d) (hneg : a < 0) :
    (calculate_trending_score now paper).recency_bonus
        = recencyTier (daysOld now (dateSecs y m d))
    ∧ recencyTier 7 = 50 ∧ recencyTier 8 = 25 ∧ recencyTier 30 = 25
    ∧ recencyTier 31 = 10 ∧ recencyTier 90 = 10 ∧ recencyTier 91 = 0
    ∧ recencyTier a = 50 := by
  refine ⟨?_, by decide, by decide, by decide, by decide, by decide, by decide, ?_⟩
  · simp [calculate_trending_score, recency_bonus_of, hpub]
  · unfold recencyTier
    rw [if_pos (le_trans hneg.le (by decide))]

/-- Witness for C3 at the concrete clock 2025-10-12 and the plain date
2025-10-05 (age 7 days), with future-dated age −1. -/
theorem recency_component_of_plain_date_witness :
    (paperPlainOct5.published = PubValue.plain 2025 10 5) ∧ ((-1 : Int) < 0)
    ∧ ((calculate_trending_score nowOct12 paperPlainOct5).recency_bonus
          = recencyTier (daysOld nowOct12 (dateSecs 2025 10 5))
       ∧ recencyTier 7 = 50 ∧ recencyTier 8 = 25 ∧ recencyTier 30 = 25
       ∧ recencyTier 31 = 10 ∧ recencyTier 90 = 10 ∧ recencyTier 91 = 0
       ∧ recencyTier (-1) = 50) :=
  ⟨rfl, by decide,
   recency_component_of_plain_date nowOct12 2025 10 5 paperPlainOct5 (-1) rfl (by decide)⟩

/-- C4 (contract where the code returns, and the raising input): whenever the
recency filter returns at all, it returns `true` exactly for records whose
`published` field parses under one of the two supported encodings to a year
at or after the cutoff — so Jan 1 of the cutoff year passes, Dec 31 of the
prior year fails, future years pass (no upper bound), and absent,
malformed-string, and scalar non-string values yield `false` through the
caught `ValueError`/`TypeError`.  The claim's "without raising" clause fails,
however: a non-string container whose membership test finds "T" (such as
`["T"]`) reaches `published_date.replace(...)` and raises an `AttributeError`
that `except (ValueError, TypeError)` does not catch, contradicting the
spec's "must not raise on malformed input" requirement. -/
theorem recency_filter_contract_and_raise (cutoff_year : Int) (paper : Paper) :
    (is_recent_paper_run cutoff_year paper =
       if paper.published = .nonStringWithT then PyResult.attributeError
       else PyResult.ok (is_recent_paper_at cutoff_year paper))
    ∧ (is_recent_paper_at cutoff_year paper = true ↔
        ∃ y, parsedYear paper.published = some y ∧ cutoff_year ≤ y)
    ∧ is_recent_paper_run CURRENT_YEAR paperListT = PyResult.attributeError := by
  refine ⟨?_, ?_, rfl⟩
  · cases h : paper.published <;>
      simp [is_recent_paper_run, is_recent_paper_at, h]
  · cases h : paper.published <;>
      simp [is_recent_paper_at, parsedYear, h]

/-- C5: on a non-empty input, `pick_best` returns the head of the stable
descending sort of the validation-enriched input by combined score; that head
is a member of the enriched input with maximal combined score, and the sort
is stable: for every score value, the equal-score records appear in the
sorted sequence exactly in their original relative order. -/
theorem selector_ranks_and_picks (papers : List Paper) (q : Paper) (c : Int)
    (hne : papers ≠ [])
    (hq : q ∈ papers.map add_external_validation) :
    (pick_best papers).1
        = (sortDesc combined_score (papers.map add_external_validation)).headD emptyPaper
    ∧ (pick_best papers).1 ∈ papers.map add_external_validation
    ∧ combined_score q ≤ combined_score ((pick_best papers).1)
    ∧ (sortDesc combined_score (papers.map add_external_validation)).Pairwise
        (fun x y => combined_score y ≤ combined_score x)
    ∧ (sortDesc combined_score (papers.map add_external_validation)).filter
          (fun r => combined_score r == c)
        = (papers.map add_external_validation).filter (fun r => combined_score r == c) := by
  match papers, hne with
  | p :: ps, _ =>
    refine ⟨rfl, ?_, ?_, sortDesc_pairwise _ _, sortDesc_filter _ _ _⟩
    · exact sortDesc_headD_mem _ _ _ (by simp)
    · exact sortDesc_headD_max _ _ _ q hq

/-- Witness for C5 on the two-record tie `[paperX, paperY]` at score 15. -/
theorem selector_ranks_and_picks_witness :
    ([paperX, paperY] ≠ ([] : List Paper))
    ∧ add_external_validation paperX ∈ [paperX, paperY].map add_external_validation
    ∧ ((pick_best [paperX, paperY]).1
          = (sortDesc combined_score
              ([paperX, paperY].map add_external_validation)).headD emptyPaper
       ∧ (pick_best [paperX, paperY]).1 ∈ [paperX, paperY].map add_external_validation
       ∧ combined_score (add_external_validation paperX)
           ≤ combined_score ((pick_best [paperX, paperY]).1)
       ∧ (sortDesc combined_score ([paperX, paperY].map add_external_validation)).Pairwise
           (fun x y => combined_score y ≤ combined_score x)
       ∧ (sortDesc combined_score ([paperX, paperY].map add_external_validation)).filter
             (fun r => combined_score r == 15)
           = ([paperX, paperY].map add_external_validation).filter
               (fun r => combined_score r == 15)) :=
  ⟨by decide, by decide,
   selector_ranks_and_picks [paperX, paperY] (add_external_validation paperX) 15
     (by decide) (by decide)⟩

/-- C6: the candidate-set reduction returns exactly the `is_recent_paper`
sublist of the input (in original order) when any record passes, and
otherwise falls back to the first 10 records of the original unfiltered list,
raising the observable fallback flag (the printed warning). -/
theorem candidate_reduction_cases (all_papers : List Paper) :
    reduce_candidates all_papers =
      if ∀ p ∈ all_papers, is_recent_paper p = false
      then (all_papers.take 10, true)
      else (all_papers.filter is_recent_paper, false) := by
  unfold reduce_candidates
  by_cases h : ∀ p ∈ all_papers, is_recent_paper p = false
  · rw [if_pos h, if_pos]
    rw [List.isEmpty_iff, List.filter_eq_nil_iff]
    simpa using h
  · rw [if_neg h, if_neg]
    rw [List.isEmpty_iff, List.filter_eq_nil_iff]
    simpa using h

/-- C7: the external validator's total is exactly the sum of the three
bonuses — 10 for a URL containing the arXiv marker (recording the matched
URL, else leaving the slot null), 15 for truthy `github_stars`, 5 for a
present, non-blank conference — and therefore lies between 0 (it is a `Nat`)
and 30. -/
theorem validator_breakdown (paper : Paper) :
    (validate_external_trending paper).validation_score
        = (if containsSeq arxivMarker.data ((paper.url_abs.getD "").data) then 10 else 0)
          + (if starsTruthy paper.github_stars then 15 else 0)
          + (if (paper.conference.getD "" != "") && pyStripTruthy (paper.conference.getD "")
             then 5 else 0)
    ∧ (validate_external_trending paper).arxiv_url
        = (if containsSeq arxivMarker.data ((paper.url_abs.getD "").data)
           then some (paper.url_abs.getD "") else none)
    ∧ (validate_external_trending paper).validation_score ≤ 30 := by
  unfold validate_external_trending
  cases h1 : containsSeq arxivMarker.data ((paper.url_abs.getD "").data) <;>
  cases h2 : starsTruthy paper.github_stars <;>
  cases h3 : (paper.conference.getD "" != "") && pyStripTruthy (paper.conference.getD "") <;>
    simp [h1, h2, h3]

/-- C8: applied to the empty list, `pick_best` returns the empty-record
sentinel together with no top-3 report; the function is total, so nothing is
raised. -/
theorem pick_best_empty : pick_best [] = (emptyPaper, none) := rfl

/-- C9: each enrichment step only writes its own enrichment slot: attaching
the trending analysis preserves every other field of the record (including
the validation slot), and attaching the external validation preserves every
other field (including the trending slot) — no source field is removed or
overwritten. -/
theorem enrichment_frame (now : Int) (p : Paper) :
    ((enrich_trending now p).title = p.title
     ∧ (enrich_trending now p).url_abs = p.url_abs
     ∧ (enrich_trending now p).published = p.published
     ∧ (enrich_trending now p).github_stars = p.github_stars
     ∧ (enrich_trending now p).conference = p.conference
     ∧ (enrich_trending now p).extra = p.extra
     ∧ (enrich_trending now p).external_validation = p.external_validation)
    ∧ ((add_external_validation p).title = p.title
     ∧ (add_external_validation p).url_abs = p.url_abs
     ∧ (add_external_validation p).published = p.published
     ∧ (add_external_validation p).github_stars = p.github_stars
     ∧ (add_external_validation p).conference = p.conference
     ∧ (add_external_validation p).extra = p.extra
     ∧ (add_external_validation p).trending_analysis = p.trending_analysis) :=
  ⟨⟨rfl, rfl, rfl, rfl, rfl, rfl, rfl⟩, ⟨rfl, rfl, rfl, rfl, rfl, rfl, rfl⟩⟩

/-- C10: on a non-empty input `pick_best` is total even for records the
trending scorer never enriched: it returns a member of the
validation-enriched input (no exception is modelled because every record read
uses a defaulted `.get`), a record with no `trending_analysis` key is ranked
with trending total 0 (only its validation score counts), and a record with
no `external_validation` key is ranked with validation total 0. -/
theorem pick_best_total_without_enrichment (papers : List Paper) (q r : Paper)
    (hne : papers ≠ []) (hq : q.trending_analysis = none)
    (hr : r.external_validation = none) :
    (pick_best papers).1 ∈ papers.map add_external_validation
    ∧ combined_score q
        = (match q.external_validation with
           | some v => (v.validation_score : Int)
           | none => 0)
    ∧ combined_score r
        = (match r.trending_analysis with
           | some t => t.total_score
           | none => 0) := by
  refine ⟨?_, ?_, ?_⟩
  · match papers, hne with
    | p :: ps, _ => exact sortDesc_headD_mem _ _ _ (by simp)
  · simp [combined_score, hq]
  · simp [combined_score, hr]

/-- Witness for C10 on the singleton unenriched record `paperX`. -/
theorem pick_best_total_without_enrichment_witness :
    ([paperX] ≠ ([] : List Paper))
    ∧ paperX.trending_analysis = none
    ∧ paperX.external_validation = none
    ∧ ((pick_best [paperX]).1 ∈ [paperX].map add_external_validation
       ∧ combined_score paperX
           = (match paperX.external_validation with
              | some v => (v.validation_score : Int)
              | none => 0)
       ∧ combined_score paperX
           = (match paperX.trending_analysis with
              | some t => t.total_score
              | none => 0)) :=
  ⟨by decide, rfl, rfl,
   pick_best_total_without_enrichment [paperX] paperX paperX (by decide) rfl rfl⟩

end AIPaperWriter
